import Mathlib

/-!
# Yale Network Search — verification of the specification against the source

This file embeds the parts of the `ghsmc/directory-v2` repository that the
specification describes: the Directory page filter (`Directory.tsx`,
`mockPeople.ts`), the Happenstance search frontend (`HappenstanceApp` with its
`SearchResponse` contract, the `handleSearch` control flow and the displayed
SQL-condition template), the AI proxy client (`callAIProxy`), and the
PostgreSQL schema (`search_queries`, `profile_embeddings`).  Backend components
that the specification documents but whose code is not part of the available
sources (the search endpoint's input validation, the query analyzer, the rank
fuser) are modelled from the specification and marked as such in their doc
comments.
-/

set_option maxRecDepth 4000

/-! ## Character-list substring machinery

JavaScript `String.prototype.includes`, used by the Directory filter, is a
substring test.  We model strings of the embedded code as Lean `String`s and
give an executable substring test over their character lists together with its
characterisation as an existential decomposition. -/

/-- `leadsList n h` is JavaScript-style prefix test: `n` is an initial run of `h`. -/
def leadsList : List Char → List Char → Bool
  | [], _ => true
  | _ :: _, [] => false
  | a :: as, b :: bs => a == b && leadsList as bs

/-- Executable substring search: does `needle` occur contiguously inside `hay`? -/
def subSearch (needle : List Char) : List Char → Bool
  | [] => leadsList needle []
  | h :: t => leadsList needle (h :: t) || subSearch needle t

/-- `SubstringOf n h`: `n` occurs contiguously in `h`. -/
def SubstringOf (n h : List Char) : Prop := ∃ pre suf, h = pre ++ n ++ suf

/-! ## Directory page (`Directory.tsx` and `mockPeople.ts`)

The Directory page filters the static `mockPeople` corpus with a
case-insensitive substring match over name, current role, current company, bio
and skills.  `Person`, `Experience` and `Education` are the shapes from
`src/types.ts`; `mockPeople` is the corpus from `src/data/mockPeople.ts`. -/

structure Experience where
  company : String
  companyLogo : String
  role : String
  duration : String
  location : String
  description : String
deriving DecidableEq

structure Education where
  school : String
  degree : String
  field : String
  year : String
  gpa : Option String
deriving DecidableEq

structure Person where
  id : String
  name : String
  avatar : String
  currentRole : String
  currentCompany : String
  companyLogo : String
  schoolLogo : String
  location : String
  bio : String
  experience : List Experience
  education : List Education
  skills : List String
  email : String
  matchScore : Nat
deriving DecidableEq

/-- JavaScript `toLowerCase()` on the character list of a string. -/
def jsLower (s : String) : List Char := s.data.map Char.toLower

/-- JavaScript `hay.toLowerCase().includes(needle.toLowerCase())`. -/
def jsIncludes (hay needle : String) : Bool := subSearch (jsLower needle) (jsLower hay)

/-- The filter predicate from `Directory.tsx` (`matchesSearch` inside
`filteredPeople`): the lowercased query must occur in the lowercased name,
current role, current company or bio, or in some lowercased skill. -/
def matchesSearch (searchQuery : String) (person : Person) : Bool :=
  jsIncludes person.name searchQuery ||
  jsIncludes person.currentRole searchQuery ||
  jsIncludes person.currentCompany searchQuery ||
  jsIncludes person.bio searchQuery ||
  person.skills.any (fun skill => jsIncludes skill searchQuery)

def mockPeople : List Person := [
  { id := "1", name := "Sarah Chen", avatar := "https://images.unsplash.com/photo-1494790108377-be9c29b29330",
    currentRole := "Senior ML Engineer", currentCompany := "OpenAI",
    companyLogo := "https://img.logo.dev/openai.com?token=pk_VAZ6tvAVQHCDwKeaNRVyjQ",
    schoolLogo := "https://img.logo.dev/stanford.edu?token=pk_VAZ6tvAVQHCDwKeaNRVyjQ",
    location := "San Francisco, CA",
    bio := "ML engineer focused on large language models and AI safety.",
    experience := [⟨"OpenAI",
        "https://img.logo.dev/openai.com?token=pk_VAZ6tvAVQHCDwKeaNRVyjQ",
        "Senior ML Engineer", "2022 - Present", "San Francisco, CA",
        "Working on large language models and AI safety research."⟩,
      ⟨"Google",
        "https://img.logo.dev/google.com?token=pk_VAZ6tvAVQHCDwKeaNRVyjQ",
        "ML Engineer", "2020 - 2022", "Mountain View, CA",
        "Developed recommendation systems for Google Search."⟩],
    education := [⟨"Stanford University", "MS", "Computer Science", "2020", some "3.95"⟩],
    skills := ["Python", "PyTorch", "ML"], email := "sarah.chen@example.com", matchScore := 95 },
  { id := "2", name := "Michael Park", avatar := "https://images.unsplash.com/photo-1472099645785-5658abf4ff4e",
    currentRole := "AI Research Scientist", currentCompany := "Anthropic",
    companyLogo := "https://img.logo.dev/anthropic.com?token=pk_VAZ6tvAVQHCDwKeaNRVyjQ",
    schoolLogo := "https://img.logo.dev/mit.edu?token=pk_VAZ6tvAVQHCDwKeaNRVyjQ",
    location := "San Francisco, CA",
    bio := "AI researcher specializing in reinforcement learning.",
    experience := [⟨"Anthropic",
        "https://img.logo.dev/anthropic.com?token=pk_VAZ6tvAVQHCDwKeaNRVyjQ",
        "AI Research Scientist", "2023 - Present", "San Francisco, CA",
        "Leading research in AI alignment and safety."⟩,
      ⟨"DeepMind",
        "https://img.logo.dev/deepmind.com?token=pk_VAZ6tvAVQHCDwKeaNRVyjQ",
        "Research Engineer", "2021 - 2023", "London, UK",
        "Worked on reinforcement learning systems."⟩],
    education := [⟨"MIT", "PhD", "Computer Science", "2021", none⟩],
    skills := ["Python", "JAX", "RL"], email := "michael.park@example.com", matchScore := 92 },
  { id := "3", name := "Emily Zhang", avatar := "https://images.unsplash.com/photo-1534528741775-53994a69daeb",
    currentRole := "Software Engineer", currentCompany := "Stripe",
    companyLogo := "https://img.logo.dev/stripe.com?token=pk_VAZ6tvAVQHCDwKeaNRVyjQ",
    schoolLogo := "https://img.logo.dev/berkeley.edu?token=pk_VAZ6tvAVQHCDwKeaNRVyjQ",
    location := "New York, NY",
    bio := "Full-stack engineer focused on payments infrastructure.",
    experience := [⟨"Stripe",
        "https://img.logo.dev/stripe.com?token=pk_VAZ6tvAVQHCDwKeaNRVyjQ",
        "Software Engineer", "2022 - Present", "New York, NY",
        "Building next-gen payments infrastructure."⟩,
      ⟨"Meta",
        "https://img.logo.dev/meta.com?token=pk_VAZ6tvAVQHCDwKeaNRVyjQ",
        "Software Engineer", "2020 - 2022", "Seattle, WA",
        "Worked on React Native infrastructure."⟩],
    education := [⟨"UC Berkeley", "BS", "EECS", "2020", none⟩],
    skills := ["TypeScript", "React", "Go"], email := "emily.zhang@example.com", matchScore := 88 },
  { id := "4", name := "Alex Rivera", avatar := "https://images.unsplash.com/photo-1507003211169-0a1dd7228f2d",
    currentRole := "Product Engineer", currentCompany := "Vercel",
    companyLogo := "https://img.logo.dev/vercel.com?token=pk_VAZ6tvAVQHCDwKeaNRVyjQ",
    schoolLogo := "https://img.logo.dev/cmu.edu?token=pk_VAZ6tvAVQHCDwKeaNRVyjQ",
    location := "Remote",
    bio := "Full-stack developer specializing in React and Next.js.",
    experience := [⟨"Vercel",
        "https://img.logo.dev/vercel.com?token=pk_VAZ6tvAVQHCDwKeaNRVyjQ",
        "Product Engineer", "2023 - Present", "Remote",
        "Building the future of web development."⟩,
      ⟨"Shopify",
        "https://img.logo.dev/shopify.com?token=pk_VAZ6tvAVQHCDwKeaNRVyjQ",
        "Senior Developer", "2021 - 2023", "Remote",
        "Led frontend infrastructure team."⟩],
    education := [⟨"Carnegie Mellon", "MS", "Software Engineering", "2021", none⟩],
    skills := ["Next.js", "React", "Node.js"], email := "alex.rivera@example.com", matchScore := 90 },
  { id := "5", name := "Julia Lee", avatar := "https://images.unsplash.com/photo-1438761681033-6461ffad8d80",
    currentRole := "ML Platform Engineer", currentCompany := "Databricks",
    companyLogo := "https://img.logo.dev/databricks.com?token=pk_VAZ6tvAVQHCDwKeaNRVyjQ",
    schoolLogo := "https://img.logo.dev/yale.edu?token=pk_VAZ6tvAVQHCDwKeaNRVyjQ",
    location := "San Francisco, CA",
    bio := "Building scalable ML infrastructure and tools.",
    experience := [⟨"Databricks",
        "https://img.logo.dev/databricks.com?token=pk_VAZ6tvAVQHCDwKeaNRVyjQ",
        "ML Platform Engineer", "2022 - Present", "San Francisco, CA",
        "Leading ML infrastructure development."⟩,
      ⟨"Amazon",
        "https://img.logo.dev/amazon.com?token=pk_VAZ6tvAVQHCDwKeaNRVyjQ",
        "Software Engineer", "2020 - 2022", "Seattle, WA",
        "Worked on AWS SageMaker."⟩],
    education := [⟨"Yale University", "BS", "Computer Science", "2020", none⟩],
    skills := ["Python", "Spark", "MLOps"], email := "julia.lee@example.com", matchScore := 87 },
  { id := "6", name := "David Kim", avatar := "https://images.unsplash.com/photo-1500648767791-00dcc994a43e",
    currentRole := "Research Engineer", currentCompany := "DeepMind",
    companyLogo := "https://img.logo.dev/deepmind.com?token=pk_VAZ6tvAVQHCDwKeaNRVyjQ",
    schoolLogo := "https://img.logo.dev/oxford.edu?token=pk_VAZ6tvAVQHCDwKeaNRVyjQ",
    location := "London, UK",
    bio := "Researching reinforcement learning and robotics.",
    experience := [⟨"DeepMind",
        "https://img.logo.dev/deepmind.com?token=pk_VAZ6tvAVQHCDwKeaNRVyjQ",
        "Research Engineer", "2023 - Present", "London, UK",
        "Working on robotics and RL."⟩],
    education := [⟨"Oxford University", "PhD", "Computer Science", "2023", none⟩],
    skills := ["Python", "PyTorch", "RL"], email := "david.kim@example.com", matchScore := 89 },
  { id := "7", name := "Rachel Chen", avatar := "https://images.unsplash.com/photo-1544005313-94ddf0286df2",
    currentRole := "Frontend Engineer", currentCompany := "Figma",
    companyLogo := "https://img.logo.dev/figma.com?token=pk_VAZ6tvAVQHCDwKeaNRVyjQ",
    schoolLogo := "https://img.logo.dev/ucla.edu?token=pk_VAZ6tvAVQHCDwKeaNRVyjQ",
    location := "San Francisco, CA",
    bio := "Building design tools and creative software.",
    experience := [⟨"Figma",
        "https://img.logo.dev/figma.com?token=pk_VAZ6tvAVQHCDwKeaNRVyjQ",
        "Frontend Engineer", "2022 - Present", "San Francisco, CA",
        "Developing core design platform features."⟩],
    education := [⟨"UCLA", "BS", "Computer Science", "2022", none⟩],
    skills := ["TypeScript", "React", "WebGL"], email := "rachel.chen@example.com", matchScore := 86 },
  { id := "8", name := "Thomas Wilson", avatar := "https://images.unsplash.com/photo-1506794778202-cad84cf45f1d",
    currentRole := "AI Safety Researcher", currentCompany := "Anthropic",
    companyLogo := "https://img.logo.dev/anthropic.com?token=pk_VAZ6tvAVQHCDwKeaNRVyjQ",
    schoolLogo := "https://img.logo.dev/harvard.edu?token=pk_VAZ6tvAVQHCDwKeaNRVyjQ",
    location := "San Francisco, CA",
    bio := "Working on AI alignment and safety research.",
    experience := [⟨"Anthropic",
        "https://img.logo.dev/anthropic.com?token=pk_VAZ6tvAVQHCDwKeaNRVyjQ",
        "AI Safety Researcher", "2023 - Present", "San Francisco, CA",
        "Developing safe and aligned AI systems."⟩],
    education := [⟨"Harvard University", "PhD", "Computer Science", "2023", none⟩],
    skills := ["Python", "ML", "AI Safety"], email := "thomas.wilson@example.com", matchScore := 91 },
  { id := "9", name := "Sophie Anderson", avatar := "https://images.unsplash.com/photo-1517841905240-472988babdf9",
    currentRole := "ML Engineer", currentCompany := "Scale AI",
    companyLogo := "https://img.logo.dev/scale.com?token=pk_VAZ6tvAVQHCDwKeaNRVyjQ",
    schoolLogo := "https://img.logo.dev/caltech.edu?token=pk_VAZ6tvAVQHCDwKeaNRVyjQ",
    location := "San Francisco, CA",
    bio := "Building ML infrastructure and tools.",
    experience := [⟨"Scale AI",
        "https://img.logo.dev/scale.com?token=pk_VAZ6tvAVQHCDwKeaNRVyjQ",
        "ML Engineer", "2022 - Present", "San Francisco, CA",
        "Developing ML infrastructure and tools."⟩],
    education := [⟨"Caltech", "BS", "Computer Science", "2022", none⟩],
    skills := ["Python", "ML", "MLOps"], email := "sophie.anderson@example.com", matchScore := 88 },
  { id := "10", name := "James Taylor", avatar := "https://images.unsplash.com/photo-1500648767791-00dcc994a43e",
    currentRole := "Research Scientist", currentCompany := "Cohere",
    companyLogo := "https://img.logo.dev/cohere.ai?token=pk_VAZ6tvAVQHCDwKeaNRVyjQ",
    schoolLogo := "https://img.logo.dev/princeton.edu?token=pk_VAZ6tvAVQHCDwKeaNRVyjQ",
    location := "Toronto, Canada",
    bio := "Developing large language models.",
    experience := [⟨"Cohere",
        "https://img.logo.dev/cohere.ai?token=pk_VAZ6tvAVQHCDwKeaNRVyjQ",
        "Research Scientist", "2023 - Present", "Toronto, Canada",
        "Working on large language models."⟩],
    education := [⟨"Princeton University", "PhD", "Computer Science", "2023", none⟩],
    skills := ["Python", "NLP", "ML"], email := "james.taylor@example.com", matchScore := 87 },
  { id := "11", name := "Emma Davis", avatar := "https://images.unsplash.com/photo-1534528741775-53994a69daeb",
    currentRole := "AI Engineer", currentCompany := "Adept AI",
    companyLogo := "https://img.logo.dev/adept.ai?token=pk_VAZ6tvAVQHCDwKeaNRVyjQ",
    schoolLogo := "https://img.logo.dev/columbia.edu?token=pk_VAZ6tvAVQHCDwKeaNRVyjQ",
    location := "San Francisco, CA",
    bio := "Building AI agents and automation systems.",
    experience := [⟨"Adept AI",
        "https://img.logo.dev/adept.ai?token=pk_VAZ6tvAVQHCDwKeaNRVyjQ",
        "AI Engineer", "2023 - Present", "San Francisco, CA",
        "Developing AI agents for automation."⟩],
    education := [⟨"Columbia University", "MS", "Computer Science", "2023", none⟩],
    skills := ["Python", "ML", "Robotics"], email := "emma.davis@example.com", matchScore := 86 },
  { id := "12", name := "Daniel Lee", avatar := "https://images.unsplash.com/photo-1507003211169-0a1dd7228f2d",
    currentRole := "AI Researcher", currentCompany := "Character AI",
    companyLogo := "https://img.logo.dev/character.ai?token=pk_VAZ6tvAVQHCDwKeaNRVyjQ",
    schoolLogo := "https://img.logo.dev/cornell.edu?token=pk_VAZ6tvAVQHCDwKeaNRVyjQ",
    location := "Palo Alto, CA",
    bio := "Developing conversational AI systems.",
    experience := [⟨"Character AI",
        "https://img.logo.dev/character.ai?token=pk_VAZ6tvAVQHCDwKeaNRVyjQ",
        "AI Researcher", "2023 - Present", "Palo Alto, CA",
        "Building conversational AI characters."⟩],
    education := [⟨"Cornell University", "PhD", "Computer Science", "2023", none⟩],
    skills := ["Python", "NLP", "ML"], email := "daniel.lee@example.com", matchScore := 85 },
  { id := "13", name := "Olivia Wang", avatar := "https://images.unsplash.com/photo-1517841905240-472988babdf9",
    currentRole := "ML Engineer", currentCompany := "Inflection AI",
    companyLogo := "https://img.logo.dev/inflection.ai?token=pk_VAZ6tvAVQHCDwKeaNRVyjQ",
    schoolLogo := "https://img.logo.dev/upenn.edu?token=pk_VAZ6tvAVQHCDwKeaNRVyjQ",
    location := "Palo Alto, CA",
    bio := "Working on personal AI assistants.",
    experience := [⟨"Inflection AI",
        "https://img.logo.dev/inflection.ai?token=pk_VAZ6tvAVQHCDwKeaNRVyjQ",
        "ML Engineer", "2023 - Present", "Palo Alto, CA",
        "Developing personal AI assistants."⟩],
    education := [⟨"UPenn", "MS", "Computer Science", "2023", none⟩],
    skills := ["Python", "ML", "NLP"], email := "olivia.wang@example.com", matchScore := 84 },
  { id := "14", name := "Ryan Martinez", avatar := "https://images.unsplash.com/photo-1500648767791-00dcc994a43e",
    currentRole := "ML Engineer", currentCompany := "Perplexity AI",
    companyLogo := "https://img.logo.dev/perplexity.ai?token=pk_VAZ6tvAVQHCDwKeaNRVyjQ",
    schoolLogo := "https://img.logo.dev/gatech.edu?token=pk_VAZ6tvAVQHCDwKeaNRVyjQ",
    location := "San Francisco, CA",
    bio := "Building AI-powered search systems.",
    experience := [⟨"Perplexity AI",
        "https://img.logo.dev/perplexity.ai?token=pk_VAZ6tvAVQHCDwKeaNRVyjQ",
        "ML Engineer", "2023 - Present", "San Francisco, CA",
        "Developing AI search technology."⟩],
    education := [⟨"Georgia Tech", "MS", "Computer Science", "2023", none⟩],
    skills := ["Python", "ML", "Search"], email := "ryan.martinez@example.com", matchScore := 83 },
  { id := "15", name := "Isabella Brown", avatar := "https://images.unsplash.com/photo-1517841905240-472988babdf9",
    currentRole := "Research Engineer", currentCompany := "Mistral AI",
    companyLogo := "https://img.logo.dev/mistral.ai?token=pk_VAZ6tvAVQHCDwKeaNRVyjQ",
    schoolLogo := "https://img.logo.dev/ethz.ch?token=pk_VAZ6tvAVQHCDwKeaNRVyjQ",
    location := "Paris, France",
    bio := "Developing efficient language models.",
    experience := [⟨"Mistral AI",
        "https://img.logo.dev/mistral.ai?token=pk_VAZ6tvAVQHCDwKeaNRVyjQ",
        "Research Engineer", "2023 - Present", "Paris, France",
        "Working on efficient LLMs."⟩],
    education := [⟨"ETH Zürich", "MS", "Computer Science", "2023", none⟩],
    skills := ["Python", "ML", "NLP"], email := "isabella.brown@example.com", matchScore := 82 },
  { id := "16", name := "Lucas Thompson", avatar := "https://images.unsplash.com/photo-1506794778202-cad84cf45f1d",
    currentRole := "Robotics Engineer", currentCompany := "Figure AI",
    companyLogo := "https://img.logo.dev/figure.ai?token=pk_VAZ6tvAVQHCDwKeaNRVyjQ",
    schoolLogo := "https://img.logo.dev/stanford.edu?token=pk_VAZ6tvAVQHCDwKeaNRVyjQ",
    location := "San Francisco, CA",
    bio := "Building humanoid robots.",
    experience := [⟨"Figure AI",
        "https://img.logo.dev/figure.ai?token=pk_VAZ6tvAVQHCDwKeaNRVyjQ",
        "Robotics Engineer", "2023 - Present", "San Francisco, CA",
        "Developing humanoid robots."⟩],
    education := [⟨"Stanford University", "MS", "Robotics", "2023", none⟩],
    skills := ["Python", "ROS", "Control"], email := "lucas.thompson@example.com", matchScore := 81 },
  { id := "17", name := "Sophia Rodriguez", avatar := "https://images.unsplash.com/photo-1517841905240-472988babdf9",
    currentRole := "AI Researcher", currentCompany := "Midjourney",
    companyLogo := "https://img.logo.dev/midjourney.com?token=pk_VAZ6tvAVQHCDwKeaNRVyjQ",
    schoolLogo := "https://img.logo.dev/mit.edu?token=pk_VAZ6tvAVQHCDwKeaNRVyjQ",
    location := "San Francisco, CA",
    bio := "Working on generative AI for images.",
    experience := [⟨"Midjourney",
        "https://img.logo.dev/midjourney.com?token=pk_VAZ6tvAVQHCDwKeaNRVyjQ",
        "AI Researcher", "2023 - Present", "San Francisco, CA",
        "Developing image generation models."⟩],
    education := [⟨"MIT", "PhD", "Computer Vision", "2023", none⟩],
    skills := ["Python", "CV", "GANs"], email := "sophia.rodriguez@example.com", matchScore := 80 },
  { id := "18", name := "William Clark", avatar := "https://images.unsplash.com/photo-1500648767791-00dcc994a43e",
    currentRole := "Research Scientist", currentCompany := "Stability AI",
    companyLogo := "https://img.logo.dev/stability.ai?token=pk_VAZ6tvAVQHCDwKeaNRVyjQ",
    schoolLogo := "https://img.logo.dev/berkeley.edu?token=pk_VAZ6tvAVQHCDwKeaNRVyjQ",
    location := "London, UK",
    bio := "Developing stable diffusion models.",
    experience := [⟨"Stability AI",
        "https://img.logo.dev/stability.ai?token=pk_VAZ6tvAVQHCDwKeaNRVyjQ",
        "Research Scientist", "2023 - Present", "London, UK",
        "Working on diffusion models."⟩],
    education := [⟨"UC Berkeley", "PhD", "Computer Vision", "2023", none⟩],
    skills := ["Python", "CV", "Diffusion"], email := "william.clark@example.com", matchScore := 79 },
  { id := "19", name := "Ava Patel", avatar := "https://images.unsplash.com/photo-1517841905240-472988babdf9",
    currentRole := "ML Engineer", currentCompany := "Hugging Face",
    companyLogo := "https://img.logo.dev/huggingface.co?token=pk_VAZ6tvAVQHCDwKeaNRVyjQ",
    schoolLogo := "https://img.logo.dev/cambridge.edu?token=pk_VAZ6tvAVQHCDwKeaNRVyjQ",
    location := "New York, NY",
    bio := "Building open-source ML tools.",
    experience := [⟨"Hugging Face",
        "https://img.logo.dev/huggingface.co?token=pk_VAZ6tvAVQHCDwKeaNRVyjQ",
        "ML Engineer", "2023 - Present", "New York, NY",
        "Developing ML libraries and tools."⟩],
    education := [⟨"Cambridge University", "MPhil", "Machine Learning", "2023", none⟩],
    skills := ["Python", "ML", "NLP"], email := "ava.patel@example.com", matchScore := 78 },
  { id := "20", name := "Ethan Kim", avatar := "https://images.unsplash.com/photo-1500648767791-00dcc994a43e",
    currentRole := "ML Engineer", currentCompany := "Runway",
    companyLogo := "https://img.logo.dev/runwayml.com?token=pk_VAZ6tvAVQHCDwKeaNRVyjQ",
    schoolLogo := "https://img.logo.dev/nyu.edu?token=pk_VAZ6tvAVQHCDwKeaNRVyjQ",
    location := "New York, NY",
    bio := "Working on generative AI for video.",
    experience := [⟨"Runway",
        "https://img.logo.dev/runwayml.com?token=pk_VAZ6tvAVQHCDwKeaNRVyjQ",
        "ML Engineer", "2023 - Present", "New York, NY",
        "Developing video generation models."⟩],
    education := [⟨"NYU", "MS", "Computer Science", "2023", none⟩],
    skills := ["Python", "CV", "GANs"], email := "ethan.kim@example.com", matchScore := 77 }
]

/-- `filteredPeople` from `Directory.tsx`: the corpus filtered by the search query. -/
def filteredPeople (searchQuery : String) : List Person :=
  mockPeople.filter (matchesSearch searchQuery)

/-! ## Happenstance search frontend (`HappenstanceApp.tsx`)

The TypeScript interfaces `SearchResult`, `SearchResponse`, `QueryAnalysis`
and `ProcessingStep`, the `handleSearch` control flow with its empty-input
guard, fetch sequence and catch branch, and the displayed generated-SQL
template are embedded here.  `FiltersDetected` stands for the TypeScript
`any` payload of `filters_detected`, whose content no embedded code
inspects. -/

structure QueryAnalysis where
  traits : List String
  work_filters : List String
  key_phrases : List String
  explanation : String
deriving DecidableEq

/-- Placeholder for the TypeScript `any` type of `filters_detected`. -/
def FiltersDetected : Type := String

structure SearchResult where
  uuid_id : String
  name : String
  headline : String
  location : Option String
  ai_summary : Option String
  ai_tags : Option (List String)
  yale_school : Option String
  major : Option String
  class_year : Option Nat
  relevance_score : ℚ
deriving DecidableEq

structure SearchResponse where
  query : String
  total_results : Nat
  results : List SearchResult
  filters_detected : FiltersDetected
  search_time_ms : Nat
  query_analysis : Option QueryAnalysis

/-- The field names of the `SearchResponse` interface, in declaration order:
the full response contract the presentation layer sees. -/
def searchResponseFields : List String :=
  ["query", "total_results", "results", "filters_detected", "search_time_ms",
   "query_analysis"]

inductive StepStatus where
  | pending
  | processing
  | completed
deriving DecidableEq

/-- A `ProcessingStep` as displayed by the frontend.  The mutable `details`
strings are progress copy shown beside each step; they carry no search data
and are not modelled beyond presence. -/
structure ProcessingStep where
  step : String
  status : StepStatus
deriving DecidableEq

/-- The six steps initialised at the top of `handleSearch`. -/
def initialSteps : List ProcessingStep :=
  [⟨"Initializing GPT-4o-mini", StepStatus.processing⟩,
   ⟨"Query Analysis", StepStatus.pending⟩,
   ⟨"Generating SQL Conditions", StepStatus.pending⟩,
   ⟨"Vector Embedding Search", StepStatus.pending⟩,
   ⟨"Database Query Execution", StepStatus.pending⟩,
   ⟨"AI-Enhanced Ranking", StepStatus.pending⟩]

/-- React component state touched by `handleSearch` (the `useState` cells). -/
structure AppState where
  results : List SearchResult
  totalResults : Nat
  searchTime : Nat
  queryAnalysis : Option QueryAnalysis
  isSearching : Bool
  hasSearched : Bool
  processingSteps : List ProcessingStep

/-- The initial component state (the `useState` initial values). -/
def initialAppState : AppState :=
  { results := [], totalResults := 0, searchTime := 0, queryAnalysis := none,
    isSearching := false, hasSearched := false, processingSteps := [] }

/-- A network request issued by `handleSearch`, with the query string and
parameters it carries.  `analyzeQueryCall q` is the
`GET /analyze-query?q=...` request and `enrichedSearchCall q limit
include_analysis` the `GET /enriched-search?q=...&limit=...` request. -/
inductive FetchCall where
  | analyzeQueryCall (q : String)
  | enrichedSearchCall (q : String) (limit : Nat) (include_analysis : Bool)
deriving DecidableEq

/-- Result of one `fetch(...).json()` round trip: either a parsed value or a
thrown exception (network failure or JSON error). -/
inductive FetchOutcome (α : Type) where
  | ok (value : α)
  | thrown

/-- Shape of the `/analyze-query` response body (`analysisData.analysis`). -/
structure AnalysisData where
  analysis : Option QueryAnalysis

/-- The behaviour of the backend during one `handleSearch` run: what each of
the two fetches returns. -/
structure BackendBehavior where
  analyzeOutcome : FetchOutcome AnalysisData
  searchOutcome : FetchOutcome SearchResponse

/-- State after the `catch` branch plus the `finally` clause: results and
total cleared, every processing step reset to `pending`, spinner stopped.
The branch also writes the error to the console only. -/
def catchState (s : AppState) : AppState :=
  { s with results := [], totalResults := 0,
           processingSteps := s.processingSteps.map
             (fun st => { st with status := StepStatus.pending }),
           isSearching := false }

/-- JavaScript `String.prototype.trim` on the character list of a string:
whitespace stripped from both ends. -/
def jsTrim (s : String) : List Char :=
  ((s.data.dropWhile Char.isWhitespace).reverse.dropWhile Char.isWhitespace).reverse

/-- `handleSearch` from `HappenstanceApp.tsx`, as a function from the query,
the backend behaviour and the pre-call component state to the post-call
component state paired with the list of network requests issued.  The guard
`if (!searchQuery.trim()) return;` yields an early return issuing no
requests.  The cosmetic `setTimeout` pauses and the intermediate
`setProcessingSteps` updates between the two fetches are timing effects with
no bearing on the final state and are collapsed. -/
def handleSearch (searchQuery : String) (b : BackendBehavior) (s : AppState) :
    AppState × List FetchCall :=
  if (jsTrim searchQuery = []) then (s, [])
  else
    let s1 : AppState :=
      { s with isSearching := true, hasSearched := true, results := [],
               queryAnalysis := none, processingSteps := initialSteps }
    match b.analyzeOutcome with
    | FetchOutcome.thrown =>
        (catchState s1, [FetchCall.analyzeQueryCall searchQuery])
    | FetchOutcome.ok analysisData =>
      let s2 : AppState := { s1 with queryAnalysis := analysisData.analysis }
      match b.searchOutcome with
      | FetchOutcome.thrown =>
          (catchState s2,
           [FetchCall.analyzeQueryCall searchQuery,
            FetchCall.enrichedSearchCall searchQuery 20 true])
      | FetchOutcome.ok data =>
          ({ s2 with results := data.results,
                     totalResults := data.total_results,
                     searchTime := data.search_time_ms,
                     queryAnalysis :=
                       match data.query_analysis with
                       | some qa => some qa
                       | none => s2.queryAnalysis,
                     processingSteps := initialSteps.map
                       (fun st => { st with status := StepStatus.completed }),
                     isSearching := false },
           [FetchCall.analyzeQueryCall searchQuery,
            FetchCall.enrichedSearchCall searchQuery 20 true])

/-! ## The displayed generated-SQL template (`HappenstanceApp.tsx`)

The analysis card renders the "Generated SQL Conditions" for the current
query analysis.  The template interpolates the first extracted key phrase
directly into the predicate text; the JavaScript `|| "query"` default also
replaces an empty first phrase. -/

def sqlTemplatePre : String := "WHERE (\n  p.headline ILIKE \x27%"

def sqlTemplateMid : String := "%\x27 OR \n  p.summary ILIKE \x27%"

def sqlTemplateSuf : String :=
  "%\x27\n) AND (\n  ya.person_uuid IS NOT NULL\n) ORDER BY relevance_score DESC, length(p.headline) DESC"

/-- The `sql-code` template string from `HappenstanceApp.tsx`: the first key
phrase of the query analysis (or "query" when absent or empty, since the
empty string is falsy in JavaScript) is spliced verbatim into the displayed
predicate text. -/
def sqlCodeTemplate (qa : QueryAnalysis) : String :=
  let kp : String :=
    match qa.key_phrases.head? with
    | some s => if s = "" then "query" else s
    | none => "query"
  sqlTemplatePre ++ kp ++ sqlTemplateMid ++ kp ++ sqlTemplateSuf

/-! ## AI proxy client (`callAIProxy`)

`callAIProxy` wraps the whole request in a `try`/`catch`; every failure mode
(missing environment variables, a thrown `fetch`, a non-OK HTTP status, an
`error` field in the response body) is converted to a fixed apologetic
message instead of propagating. -/

/-- Outcome of one `callAIProxy` attempt, abstracting the network. -/
inductive ProxyOutcome where
  | missingEnv
  | fetchThrew (message : String)
  | httpError (status : Nat) (body : String)
  | dataError (message : String)
  | success (response : String)
deriving DecidableEq

/-- The fixed message returned by the `catch` branch of `callAIProxy`. -/
def proxyErrorMessage : String :=
  "An error occurred while processing your request. Please try again later."

/-- The `try` block of `callAIProxy`: each guard throws (returns `error`),
a clean run returns the response text. -/
def callAIProxyTry : ProxyOutcome → Except String String
  | ProxyOutcome.missingEnv =>
      Except.error "Missing required environment variables: SUPABASE_URL or SUPABASE_ANON_KEY"
  | ProxyOutcome.fetchThrew m => Except.error m
  | ProxyOutcome.httpError st body =>
      Except.error ("HTTP error! status: " ++ toString st ++ ", message: " ++ body)
  | ProxyOutcome.dataError m => Except.error m
  | ProxyOutcome.success r => Except.ok r

/-- `callAIProxy` from `src/utils/ai.ts`: the `catch` branch swallows every
thrown error and yields the fixed fallback message; `model`, `query` and
`category` form the request body and do not influence error handling. -/
def callAIProxy (model query category : String) (o : ProxyOutcome) : String :=
  match callAIProxyTry o with
  | Except.ok r => r
  | Except.error _ => proxyErrorMessage

/-! ## Database schema (`database/schema.sql`)

Column lists and constraints of the two tables the specification describes:
the `search_queries` audit table and the `profile_embeddings` vector table
with its `UNIQUE(person_uuid)` constraint and `vector(1536)` column type. -/

inductive SqlColumnType where
  | serialPK
  | uuid
  | text
  | jsonb
  | integer
  | timestamp
deriving DecidableEq

/-- The columns of `search_queries`, in declaration order, with their types.
`parsed_filters` and `clicked_results` are `JSONB`; `sql_query` is `TEXT`. -/
def search_queries_columns : List (String × SqlColumnType) :=
  [("id", SqlColumnType.serialPK),
   ("user_id", SqlColumnType.uuid),
   ("query_text", SqlColumnType.text),
   ("parsed_filters", SqlColumnType.jsonb),
   ("sql_query", SqlColumnType.text),
   ("result_count", SqlColumnType.integer),
   ("clicked_results", SqlColumnType.jsonb),
   ("created_at", SqlColumnType.timestamp)]

/-- The `vector(1536)` dimensionality of `profile_embeddings.embedding`
(OpenAI text-embedding-ada-002). -/
def EMBEDDING_DIM : Nat := 1536

/-- One row of `profile_embeddings`.  The UUID is abstracted to a natural
number; the vector entries are abstracted to integers — only the arity is
constrained by the column type `vector(1536)`. -/
structure EmbeddingRow where
  id : Nat
  person_uuid : Nat
  embedding_text : String
  embedding : List Int
deriving DecidableEq

/-- The `profile_embeddings` table: a serial counter plus the stored rows. -/
structure EmbTable where
  nextId : Nat
  rows : List EmbeddingRow
deriving DecidableEq

/-- `INSERT INTO profile_embeddings`: rejected (constraint violation) when
the vector has the wrong dimension or the `UNIQUE(person_uuid)` constraint
would be violated. -/
def embInsert (t : EmbTable) (person_uuid : Nat) (txt : String) (vec : List Int) :
    Option EmbTable :=
  if vec.length = EMBEDDING_DIM ∧ ∀ r ∈ t.rows, r.person_uuid ≠ person_uuid then
    some { nextId := t.nextId + 1,
           rows := t.rows ++ [⟨t.nextId, person_uuid, txt, vec⟩] }
  else none

/-- `UPDATE profile_embeddings SET ... WHERE person_uuid = ...`: rejected
when the new vector has the wrong dimension; never changes `person_uuid`. -/
def embUpdate (t : EmbTable) (person_uuid : Nat) (txt : String) (vec : List Int) :
    Option EmbTable :=
  if vec.length = EMBEDDING_DIM then
    some { t with rows := t.rows.map (fun r =>
             if r.person_uuid = person_uuid then
               { r with embedding_text := txt, embedding := vec }
             else r) }
  else none

/-- `DELETE` of the rows of one profile (also the `ON DELETE CASCADE` path
when the referenced person is removed). -/
def embDelete (t : EmbTable) (person_uuid : Nat) : EmbTable :=
  { t with rows := t.rows.filter (fun r => r.person_uuid ≠ person_uuid) }

/-- The states of `profile_embeddings` reachable from the empty table through
the statements the schema admits. -/
inductive EmbReachable : EmbTable → Prop where
  | empty : EmbReachable ⟨1, []⟩
  | insert {t u txt vec t'} :
      EmbReachable t → embInsert t u txt vec = some t' → EmbReachable t'
  | update {t u txt vec t'} :
      EmbReachable t → embUpdate t u txt vec = some t' → EmbReachable t'
  | delete {t u} : EmbReachable t → EmbReachable (embDelete t u)

/-- The table invariant: profile UUIDs are pairwise distinct (at most one
embedding record per profile) and every stored vector has dimension 1536. -/
def embInv (t : EmbTable) : Prop :=
  (t.rows.map (fun r => r.person_uuid)).Nodup ∧
  ∀ r ∈ t.rows, r.embedding.length = EMBEDDING_DIM

/-! ## Query analyzer — modelled from the spec

The backend QueryAnalyzer (`backend/app/search/query_parser.py` per the
repository guide) is not part of the available sources; the following
definitions are modelled from the specification, section 4.1: a deterministic
gazetteer pass with confidence 1.0, escalation to an external
language-understanding call when under-specified, field-by-field validation
of the external JSON with proportional confidence reduction, and a
deterministic fallback on timeout or total failure. -/

/-- Modelled from the spec: gazetteer of known roles (§4.1, repository guide
examples). -/
def rolesGazetteer : List String :=
  ["student", "professor", "researcher", "founder", "engineer", "doctor",
   "investor", "vc", "alumni"]

/-- Modelled from the spec: gazetteer of interest vocabulary / traits. -/
def traitsGazetteer : List String :=
  ["computer science", "data science", "machine learning",
   "artificial intelligence", "medicine", "psychology", "finance", "law"]

/-- Modelled from the spec: gazetteer of known locations. -/
def locationsGazetteer : List String :=
  ["nyc", "new york", "san francisco", "connecticut", "new haven", "boston",
   "london"]

/-- Modelled from the spec: gazetteer of known organizations. -/
def organizationsGazetteer : List String :=
  ["google", "goldman sachs", "mckinsey", "yale"]

/-- Modelled from the spec: the Yale schools vocabulary (schema comments). -/
def schoolsGazetteer : List String :=
  ["Yale College", "Yale Law School", "Yale SOM", "Yale School of Medicine",
   "Yale Graduate School"]

/-- Modelled from the spec: the affiliation types from the schema comment on
`yale_affiliations.affiliation_type`. -/
def affiliationTypesGazetteer : List String :=
  ["undergraduate", "graduate", "faculty", "staff", "alumni"]

/-- Extraction method of a `ParsedQuery` (§3); the spec value `partial` is
rendered here as `fallback`. -/
inductive ExtractionMethod where
  | deterministic
  | modelAssisted
  | fallback
deriving DecidableEq

/-- Modelled from the spec: the `ParsedQuery` shape (§3). -/
structure ParsedQuery where
  traits : List String
  roles : List String
  locations : List String
  organizations : List String
  school : Option String
  classYearFrom : Option Int
  classYearTo : Option Int
  affiliationType : Option String
  key_phrases : List String
  confidence : ℚ
  method : ExtractionMethod
deriving DecidableEq

/-- Modelled from the spec: case-insensitive substring matching of a
gazetteer against the query text (§4.1). -/
def gazetteerHits (q : String) (gaz : List String) : List String :=
  gaz.filter (fun g => jsIncludes q g)

/-- Modelled from the spec: the deterministic first pass — gazetteer matches
only, confidence 1.0. -/
def deterministicPass (q : String) : ParsedQuery :=
  { traits := gazetteerHits q traitsGazetteer,
    roles := gazetteerHits q rolesGazetteer,
    locations := gazetteerHits q locationsGazetteer,
    organizations := gazetteerHits q organizationsGazetteer,
    school := (gazetteerHits q schoolsGazetteer).head?,
    classYearFrom := none,
    classYearTo := none,
    affiliationType := (gazetteerHits q affiliationTypesGazetteer).head?,
    key_phrases := [q],
    confidence := 1,
    method := ExtractionMethod.deterministic }

/-- Modelled from the spec: the raw, untrusted JSON extraction returned by
the external language-understanding service (same field shapes as
`ParsedQuery`, §9: treated as an untrusted tagged variant). -/
structure RawExtraction where
  traits : List String
  roles : List String
  locations : List String
  organizations : List String
  school : Option String
  classYearFrom : Option Int
  classYearTo : Option Int
  affiliationType : Option String
  key_phrases : List String
deriving DecidableEq

/-- Modelled from the spec: outcome of the bounded external call (§4.1). -/
inductive AnalysisOutcome where
  | timeout
  | failure
  | ok (raw : RawExtraction)

/-- Valid class-year window used by field validation. -/
def CLASS_YEAR_MIN : Int := 1700

/-- Valid class-year window used by field validation. -/
def CLASS_YEAR_MAX : Int := 2100

/-- Keep only the values of a raw list field that belong to the allowed
vocabulary (field-by-field dropping, §4.1). -/
def validateList (allowed vals : List String) : List String :=
  vals.filter (fun v => decide (v ∈ allowed))

/-- Keep an optional raw string only when it belongs to the allowed set. -/
def validateStrOpt (allowed : List String) : Option String → Option String
  | some s => if s ∈ allowed then some s else none
  | none => none

/-- Keep an optional raw year only when it lies in the valid window. -/
def validateYear : Option Int → Option Int
  | some y => if CLASS_YEAR_MIN ≤ y ∧ y ≤ CLASS_YEAR_MAX then some y else none
  | none => none

/-- Number of values carried by an optional field. -/
def optCount {α : Type} : Option α → Nat
  | some _ => 1
  | none => 0

/-- Total number of raw field values offered by the external response. -/
def rawTotal (r : RawExtraction) : Nat :=
  r.traits.length + r.roles.length + r.locations.length +
  r.organizations.length + optCount r.school + optCount r.classYearFrom +
  optCount r.classYearTo + optCount r.affiliationType

/-- Number of raw field values that survive validation. -/
def rawKept (r : RawExtraction) : Nat :=
  (validateList traitsGazetteer r.traits).length +
  (validateList rolesGazetteer r.roles).length +
  (validateList locationsGazetteer r.locations).length +
  (validateList organizationsGazetteer r.organizations).length +
  optCount (validateStrOpt schoolsGazetteer r.school) +
  optCount (validateYear r.classYearFrom) +
  optCount (validateYear r.classYearTo) +
  optCount (validateStrOpt affiliationTypesGazetteer r.affiliationType)

/-- Modelled from the spec: field-by-field validation of the external
response, with confidence reduced proportionally to how much was dropped. -/
def validatedExtraction (q : String) (r : RawExtraction) : ParsedQuery :=
  { traits := validateList traitsGazetteer r.traits,
    roles := validateList rolesGazetteer r.roles,
    locations := validateList locationsGazetteer r.locations,
    organizations := validateList organizationsGazetteer r.organizations,
    school := validateStrOpt schoolsGazetteer r.school,
    classYearFrom := validateYear r.classYearFrom,
    classYearTo := validateYear r.classYearTo,
    affiliationType := validateStrOpt affiliationTypesGazetteer r.affiliationType,
    key_phrases := if r.key_phrases = [] then [q] else r.key_phrases,
    confidence := if rawTotal r = 0 then 1 else (rawKept r : ℚ) / (rawTotal r : ℚ),
    method := ExtractionMethod.modelAssisted }

/-- Query-length threshold beyond which the query counts as free-form
(configurable per §4.1; documented default). -/
def FREE_FORM_THRESHOLD : Nat := 80

/-- Modelled from the spec: the deterministic pass leaves the query
under-specified when it produced no gazetteer hit at all, or the query is
longer than the free-form threshold. -/
def underSpecified (det : ParsedQuery) (q : String) : Bool :=
  (det.roles.isEmpty && det.traits.isEmpty && det.locations.isEmpty &&
   det.organizations.isEmpty && det.school.isNone && det.affiliationType.isNone)
  || decide (FREE_FORM_THRESHOLD < q.length)

/-- Modelled from the spec: the whole analyzer (§4.1).  The deterministic
pass always runs; escalation consults the external outcome; timeout or total
failure falls back to the deterministic partial result with the fallback
extraction method; a returned payload is validated field by field. -/
def analyzeQuery (q : String) (o : AnalysisOutcome) : ParsedQuery :=
  let det := deterministicPass q
  if underSpecified det q then
    match o with
    | AnalysisOutcome.timeout => { det with method := ExtractionMethod.fallback }
    | AnalysisOutcome.failure => { det with method := ExtractionMethod.fallback }
    | AnalysisOutcome.ok raw => validatedExtraction q raw
  else det

/-- Schema validity of a `ParsedQuery` (§3/§4.1): confidence lies in `[0,1]`
and every extracted value belongs to its allowed vocabulary or window. -/
def schemaValid (p : ParsedQuery) : Prop :=
  0 ≤ p.confidence ∧ p.confidence ≤ 1 ∧
  (∀ t ∈ p.traits, t ∈ traitsGazetteer) ∧
  (∀ r ∈ p.roles, r ∈ rolesGazetteer) ∧
  (∀ l ∈ p.locations, l ∈ locationsGazetteer) ∧
  (∀ g ∈ p.organizations, g ∈ organizationsGazetteer) ∧
  (∀ s ∈ p.school, s ∈ schoolsGazetteer) ∧
  (∀ a ∈ p.affiliationType, a ∈ affiliationTypesGazetteer) ∧
  (∀ y ∈ p.classYearFrom, CLASS_YEAR_MIN ≤ y ∧ y ≤ CLASS_YEAR_MAX) ∧
  (∀ y ∈ p.classYearTo, CLASS_YEAR_MIN ≤ y ∧ y ≤ CLASS_YEAR_MAX)

/-! ## Rank fuser — modelled from the spec

The backend RankFuser (§4.4) is not part of the available sources; the
following definitions are modelled from the specification: per-batch min-max
normalization with a degenerate-batch guard, a missing signal treated as
zero, a fixed configurable weighted sum, deterministic tie-break on the
profile id, and truncation to the requested window. -/

/-- Modelled from the spec: the fixed, documented, configurable fusion
weights α, β, γ (§4.4). -/
structure FusionParams where
  alpha : ℚ
  beta : ℚ
  gamma : ℚ
deriving DecidableEq

/-- Smallest score in a batch (0 for an empty batch). -/
def batchLo (xs : List (Nat × ℚ)) : ℚ :=
  ((xs.map Prod.snd).toFinset).min.untop' 0

/-- Largest score in a batch (0 for an empty batch). -/
def batchHi (xs : List (Nat × ℚ)) : ℚ :=
  ((xs.map Prod.snd).toFinset).max.unbot' 0

/-- Min-max normalization with the degenerate-batch guard: a batch whose
scores are all equal normalizes to the constant 1 instead of dividing by
zero (§4.4). -/
def normalizeVal (lo hi v : ℚ) : ℚ :=
  if hi = lo then 1 else (v - lo) / (hi - lo)

/-- Normalized signal of candidate `i` in a batch; a candidate absent from
the batch contributes zero (§4.4: missing signal treated as zero after
normalization). -/
def normScore (xs : List (Nat × ℚ)) (i : Nat) : ℚ :=
  match xs.lookup i with
  | none => 0
  | some v => normalizeVal (batchLo xs) (batchHi xs) v

/-- Modelled from the spec: final score
`α·norm(lexical) + β·norm(semantic) + γ·staticBoosts` (§4.4). -/
def fusedScore (p : FusionParams) (boost : Nat → ℚ) (lex sem : List (Nat × ℚ))
    (i : Nat) : ℚ :=
  p.alpha * normScore lex i + p.beta * normScore sem i + p.gamma * boost i

/-- The deduplicated union of ids appearing in either candidate batch. -/
def candidateIds (lex sem : List (Nat × ℚ)) : List Nat :=
  (lex.map Prod.fst ++ sem.map Prod.fst).dedup

/-- The fused order: strictly larger final score first; ties broken by the
fixed deterministic secondary key, the profile id (§4.4). -/
def rankLE (f : Nat → ℚ) (i j : Nat) : Bool :=
  decide (f j < f i ∨ (f i = f j ∧ i ≤ j))

/-- The relation `rankLE` decides. -/
def RankRel (f : Nat → ℚ) (i j : Nat) : Prop :=
  f j < f i ∨ (f i = f j ∧ i ≤ j)

/-- Modelled from the spec: the full fused ranking before pagination — the
union of candidate ids sorted by fused score with the id tie-break. -/
def fuseAll (p : FusionParams) (boost : Nat → ℚ) (lex sem : List (Nat × ℚ)) :
    List Nat :=
  (candidateIds lex sem).mergeSort (rankLE (fusedScore p boost lex sem))

/-- Modelled from the spec: the fused ranking truncated to the requested
window of `n` results, each id paired with its final score. -/
def fuseRank (p : FusionParams) (boost : Nat → ℚ) (lex sem : List (Nat × ℚ))
    (n : Nat) : List (Nat × ℚ) :=
  ((fuseAll p boost lex sem).take n).map
    (fun i => (i, fusedScore p boost lex sem i))

/-! ## Search endpoint input validation — modelled from the spec

The backend search endpoint (`backend/api_server.py`) is not part of the
available sources; `specSearch` is modelled from the specification: valid
input is free text of 1-500 characters; empty, whitespace-only or oversized
input is rejected with `InvalidQuery` before any retrieval and the rejection
is fatal to the request (§4.1, §7); otherwise the analysis request and the
two retrieval paths are issued and the candidate batches are fused. -/

/-- A retrieval-side request issued while serving a search. -/
inductive RetrievalCall where
  | analysisCall (q : String)
  | lexicalCall (q : String)
  | semanticCall (q : String)
deriving DecidableEq

/-- The error taxonomy of §7 that is fatal to a request. -/
inductive SearchError where
  | invalidQuery
  | serviceUnavailable
deriving DecidableEq

/-- Modelled from the spec: the search operation over already-abstracted
retrieval results (`lex`, `sem` are what the two retrieval paths would
return), paired with the list of retrieval-side calls it issues. -/
def specSearch (p : FusionParams) (boost : Nat → ℚ) (q : String)
    (lex sem : List (Nat × ℚ)) (limit : Nat) :
    Except SearchError (List (Nat × ℚ)) × List RetrievalCall :=
  if jsTrim q = [] ∨ 500 < q.length then
    (Except.error SearchError.invalidQuery, [])
  else
    (Except.ok (fuseRank p boost lex sem limit),
     [RetrievalCall.analysisCall q, RetrievalCall.lexicalCall q,
      RetrievalCall.semanticCall q])

/-! ## Theorems

Helper lemmas first, then one theorem per claim (with witnesses and
counterexamples where applicable). -/

theorem leadsList_iff (n h : List Char) : leadsList n h = true ↔ ∃ suf, h = n ++ suf := by
  induction n generalizing h with
  | nil => simp [leadsList]
  | cons a as ih =>
    cases h with
    | nil => simp [leadsList]
    | cons b bs =>
      simp only [leadsList, Bool.and_eq_true, beq_iff_eq, ih]
      constructor
      · rintro ⟨rfl, suf, rfl⟩; exact ⟨suf, rfl⟩
      · rintro ⟨suf, hsuf⟩
        injection hsuf with h1 h2
        exact ⟨h1.symm, suf, h2⟩

theorem subSearch_iff (n h : List Char) : subSearch n h = true ↔ SubstringOf n h := by
  induction h with
  | nil =>
    simp only [subSearch, leadsList_iff, SubstringOf]
    constructor
    · rintro ⟨suf, hsuf⟩
      exact ⟨[], suf, by simpa using hsuf⟩
    · rintro ⟨pre, suf, hsuf⟩
      have hp : pre = [] := by
        cases pre with
        | nil => rfl
        | cons x xs => simp at hsuf
      subst hp
      exact ⟨suf, by simpa using hsuf⟩
  | cons b bs ih =>
    simp only [subSearch, Bool.or_eq_true, leadsList_iff, ih, SubstringOf]
    constructor
    · rintro (⟨suf, hsuf⟩ | ⟨pre, suf, hsuf⟩)
      · exact ⟨[], suf, by simpa using hsuf⟩
      · exact ⟨b :: pre, suf, by simp [hsuf]⟩
    · rintro ⟨pre, suf, hsuf⟩
      cases pre with
      | nil => exact Or.inl ⟨suf, by simpa using hsuf⟩
      | cons x xs =>
        injection hsuf with h1 h2
        exact Or.inr ⟨xs, suf, h2⟩

theorem substringOf_nil (h : List Char) : SubstringOf [] h := ⟨[], h, by simp⟩

theorem jsIncludes_iff (hay needle : String) :
    jsIncludes hay needle = true ↔ SubstringOf (jsLower needle) (jsLower hay) :=
  subSearch_iff _ _

theorem jsIncludes_nil (hay : String) (h : jsLower "" = []) : jsIncludes hay "" = true := by
  rw [jsIncludes, h, subSearch_iff]
  exact substringOf_nil _

theorem matchesSearch_iff (q : String) (p : Person) :
    matchesSearch q p = true ↔
      (SubstringOf (jsLower q) (jsLower p.name) ∨
       SubstringOf (jsLower q) (jsLower p.currentRole) ∨
       SubstringOf (jsLower q) (jsLower p.currentCompany) ∨
       SubstringOf (jsLower q) (jsLower p.bio) ∨
       ∃ s ∈ p.skills, SubstringOf (jsLower q) (jsLower s)) := by
  simp only [matchesSearch, Bool.or_eq_true, List.any_eq_true, jsIncludes, subSearch_iff,
    or_assoc]

theorem matchesSearch_empty (p : Person) : matchesSearch "" p = true := by
  have h : jsIncludes p.name "" = true := jsIncludes_nil p.name rfl
  simp [matchesSearch, h]

/-- **C10.** For every search query and person, the Directory page filter
contains the person iff the person is in the corpus and the lowercased query
occurs in the lowercased name, current role, current company or bio, or in
some lowercased skill; the empty query returns the whole corpus; and the
filtered output is a sublist of the corpus (original relative order, no
foreign entries). -/
theorem directory_filter_characterised (q : String) (p : Person) :
    (p ∈ filteredPeople q ↔ p ∈ mockPeople ∧
      (SubstringOf (jsLower q) (jsLower p.name) ∨
       SubstringOf (jsLower q) (jsLower p.currentRole) ∨
       SubstringOf (jsLower q) (jsLower p.currentCompany) ∨
       SubstringOf (jsLower q) (jsLower p.bio) ∨
       ∃ s ∈ p.skills, SubstringOf (jsLower q) (jsLower s))) ∧
    filteredPeople "" = mockPeople ∧
    (filteredPeople q).Sublist mockPeople := by
  refine ⟨?_, ?_, List.filter_sublist _⟩
  · rw [filteredPeople, List.mem_filter, matchesSearch_iff]
  · rw [filteredPeople, List.filter_eq_self]
    intro a _
    exact matchesSearch_empty a

/-- A query-derived key phrase carrying relational metacharacters (a quote,
an equality comparison and a comment introducer). -/
def injectionPhrase : String := "x\x27 OR \x271\x27=\x271 --"

/-- **C1 counterexample.** The claim states that literals extracted from the
query are always bound as parameters and never concatenated into predicate
text.  At the concrete query analysis whose first key phrase carries
relational metacharacters, the compiled predicate text contains that literal
verbatim, by plain string concatenation. -/
theorem sqlTemplate_concatenates_literal_cex :
    ∃ pre suf : String,
      sqlCodeTemplate ⟨[], [], [injectionPhrase], ""⟩ =
        pre ++ injectionPhrase ++ suf := by
  refine ⟨sqlTemplatePre,
          sqlTemplateMid ++ injectionPhrase ++ sqlTemplateSuf, ?_⟩
  decide

/-- **C1 (amended).** The displayed compiled predicate is built by splicing
the first extracted key phrase directly — unparameterized — into the
predicate text, in both the headline and the summary `ILIKE` positions
(defaulting to "query" when the phrase list is empty or its head is the
empty string); so any relational metacharacters of the phrase appear
verbatim in the predicate text. -/
theorem sqlTemplate_inlines_first_phrase (qa : QueryAnalysis) (kp : String)
    (rest : List String) (h1 : qa.key_phrases = kp :: rest) (h2 : kp ≠ "") :
    sqlCodeTemplate qa =
      sqlTemplatePre ++ kp ++ sqlTemplateMid ++ kp ++ sqlTemplateSuf := by
  unfold sqlCodeTemplate
  rw [h1]
  simp [h2]

/-- Witness for the amended C1 theorem at a concrete analysis. -/
theorem sqlTemplate_inlines_first_phrase_witness :
    sqlCodeTemplate ⟨[], [], ["machine learning"], ""⟩ =
      sqlTemplatePre ++ "machine learning" ++ sqlTemplateMid ++
        "machine learning" ++ sqlTemplateSuf :=
  sqlTemplate_inlines_first_phrase ⟨[], [], ["machine learning"], ""⟩
    "machine learning" [] rfl (by decide)

/-- **C2.** Empty or whitespace-only input is rejected with `InvalidQuery`
by the search operation and no retrieval-side call (analysis, lexical or
semantic) is issued; the frontend guard likewise returns early, leaving the
component state untouched and issuing no network request at all. -/
theorem search_rejects_blank_input (q : String) (b : BackendBehavior)
    (s : AppState) (p : FusionParams) (boost : Nat → ℚ)
    (lex sem : List (Nat × ℚ)) (limit : Nat) (h : jsTrim q = []) :
    specSearch p boost q lex sem limit =
      (Except.error SearchError.invalidQuery, []) ∧
    handleSearch q b s = (s, []) := by
  constructor
  · rw [specSearch, if_pos (Or.inl h)]
  · rw [handleSearch, if_pos h]

/-- Witness for C2 at the empty query and a whitespace-only query. -/
theorem search_rejects_blank_input_witness :
    (specSearch ⟨1, 1, 1⟩ (fun _ => 0) "" [] [] 20 =
       (Except.error SearchError.invalidQuery, []) ∧
     handleSearch "" ⟨FetchOutcome.thrown, FetchOutcome.thrown⟩
       initialAppState = (initialAppState, [])) ∧
    (specSearch ⟨1, 1, 1⟩ (fun _ => 0) "   " [] [] 20 =
       (Except.error SearchError.invalidQuery, []) ∧
     handleSearch "   " ⟨FetchOutcome.thrown, FetchOutcome.thrown⟩
       initialAppState = (initialAppState, [])) :=
  ⟨search_rejects_blank_input "" ⟨FetchOutcome.thrown, FetchOutcome.thrown⟩
      initialAppState ⟨1, 1, 1⟩ (fun _ => 0) [] [] 20 (by decide),
   search_rejects_blank_input "   " ⟨FetchOutcome.thrown, FetchOutcome.thrown⟩
      initialAppState ⟨1, 1, 1⟩ (fun _ => 0) [] [] 20 (by decide)⟩

/-- **C9.** Oversized input (more than 500 characters) is rejected by the
search operation with `InvalidQuery` before any retrieval-side call is
issued; the rejection is fatal to the request (an error, not a degraded
result). -/
theorem search_rejects_oversized_input (q : String) (p : FusionParams)
    (boost : Nat → ℚ) (lex sem : List (Nat × ℚ)) (limit : Nat)
    (h : 500 < q.length) :
    specSearch p boost q lex sem limit =
      (Except.error SearchError.invalidQuery, []) := by
  rw [specSearch, if_pos (Or.inr h)]

/-- Witness for C9 at a concrete 501-character query. -/
theorem search_rejects_oversized_input_witness :
    specSearch ⟨1, 1, 1⟩ (fun _ => 0) ⟨List.replicate 501 'a'⟩ [] [] 20 =
      (Except.error SearchError.invalidQuery, []) :=
  search_rejects_oversized_input ⟨List.replicate 501 'a'⟩ ⟨1, 1, 1⟩
    (fun _ => 0) [] [] 20
    (by simp [String.length])

/-- **C3 counterexample.** The claim states that every degradation is
carried in the response metadata via the `degraded` field of the search
response shape.  The `SearchResponse` interface has no `degraded` field at
all, and on a concrete failing run the frontend completes with cleared
results and no degradation marker anywhere in its state. -/
theorem degradation_not_in_response_cex :
    "degraded" ∉ searchResponseFields ∧
    (handleSearch "ai" ⟨FetchOutcome.thrown, FetchOutcome.thrown⟩
        initialAppState).1.results = [] ∧
    (handleSearch "ai" ⟨FetchOutcome.thrown, FetchOutcome.thrown⟩
        initialAppState).1.totalResults = 0 := by
  refine ⟨by decide, ?_, ?_⟩ <;> decide

/-- **C3 (amended).** When either backend call of a search request fails,
the request still completes (the spinner stops), but the degradation is
silent: results and total are cleared, every processing step is reset to
pending, the error goes to the console only, and the `SearchResponse` shape
carries no `degraded` field in which it could be reported. -/
theorem search_failure_is_silent (q : String) (b : BackendBehavior)
    (s : AppState) (hq : jsTrim q ≠ [])
    (hb : b.analyzeOutcome = FetchOutcome.thrown ∨
          b.searchOutcome = FetchOutcome.thrown) :
    (handleSearch q b s).1.results = [] ∧
    (handleSearch q b s).1.totalResults = 0 ∧
    (handleSearch q b s).1.isSearching = false ∧
    (∀ st ∈ (handleSearch q b s).1.processingSteps,
       st.status = StepStatus.pending) ∧
    "degraded" ∉ searchResponseFields := by
  obtain ⟨oa, os⟩ := b
  rw [handleSearch, if_neg hq]
  cases oa with
  | thrown =>
    refine ⟨rfl, rfl, rfl, ?_, by decide⟩
    intro st hst
    simp only [catchState, List.mem_map] at hst
    obtain ⟨st', _, rfl⟩ := hst
    rfl
  | ok a =>
    cases os with
    | thrown =>
      refine ⟨rfl, rfl, rfl, ?_, by decide⟩
      intro st hst
      simp only [catchState, List.mem_map] at hst
      obtain ⟨st', _, rfl⟩ := hst
      rfl
    | ok d =>
      rcases hb with hb | hb <;> exact absurd hb (by simp)

/-- Witness for the amended C3 theorem on a concrete failing run. -/
theorem search_failure_is_silent_witness :
    (handleSearch "ai" ⟨FetchOutcome.thrown, FetchOutcome.thrown⟩
        initialAppState).1.results = [] ∧
    (handleSearch "ai" ⟨FetchOutcome.thrown, FetchOutcome.thrown⟩
        initialAppState).1.isSearching = false :=
  ⟨(search_failure_is_silent "ai" ⟨FetchOutcome.thrown, FetchOutcome.thrown⟩
      initialAppState (by decide) (Or.inl rfl)).1,
   (search_failure_is_silent "ai" ⟨FetchOutcome.thrown, FetchOutcome.thrown⟩
      initialAppState (by decide) (Or.inl rfl)).2.2.1⟩

/-- **C7 counterexample.** The claim names a `generated_predicates` field in
the persisted audit record; the `search_queries` table has no column of that
name (the predicate text lives in the `sql_query` column). -/
theorem search_queries_no_generated_predicates_cex :
    "generated_predicates" ∉ search_queries_columns.map Prod.fst := by
  decide

/-- **C7 (amended).** The persisted search audit record has exactly the
fields id, user_id, query_text, parsed_filters, sql_query, result_count,
clicked_results and created_at; parsed_filters and clicked_results are
structured (`JSONB`) and the generated predicate text is stored as text in
the `sql_query` column. -/
theorem search_queries_audit_shape :
    search_queries_columns.map Prod.fst =
      ["id", "user_id", "query_text", "parsed_filters", "sql_query",
       "result_count", "clicked_results", "created_at"] ∧
    search_queries_columns.lookup "parsed_filters" = some SqlColumnType.jsonb ∧
    search_queries_columns.lookup "clicked_results" = some SqlColumnType.jsonb ∧
    search_queries_columns.lookup "sql_query" = some SqlColumnType.text := by
  decide

/-- At most one element of a list maps to any given key once the mapped keys
are pairwise distinct. -/
theorem length_filter_key_le_one {α : Type} (f : α → Nat) (u : Nat) :
    ∀ l : List α, (l.map f).Nodup →
      (l.filter (fun x => f x = u)).length ≤ 1 := by
  intro l
  induction l with
  | nil => intro _; simp
  | cons a t ih =>
    intro nd
    rw [List.map_cons, List.nodup_cons] at nd
    by_cases ha : f a = u
    · have ht : t.filter (fun x => f x = u) = [] := by
        rw [List.filter_eq_nil_iff]
        intro x hx
        simp only [decide_eq_true_eq]
        intro hfx
        exact nd.1 (ha ▸ hfx ▸ List.mem_map_of_mem f hx)
      simp [List.filter_cons, ha, ht]
    · simpa [List.filter_cons, ha] using ih nd.2

/-- Every reachable state of `profile_embeddings` satisfies the table
invariant. -/
theorem embInv_of_reachable {t : EmbTable} (h : EmbReachable t) : embInv t := by
  induction h with
  | empty => exact ⟨List.nodup_nil, by intro r hr; cases hr⟩
  | insert hr heq ih =>
    rename_i t u txt vec t'
    rw [embInsert] at heq
    split at heq
    · rename_i hcond
      cases heq
      constructor
      · simp only [List.map_append, List.map_cons, List.map_nil]
        rw [List.nodup_append]
        refine ⟨ih.1, List.nodup_singleton u, ?_⟩
        intro x hx hx'
        simp only [List.mem_singleton] at hx'
        subst hx'
        obtain ⟨r, hr, hru⟩ := List.mem_map.mp hx
        exact hcond.2 r hr hru
      · intro r hr
        rcases List.mem_append.mp hr with hr | hr
        · exact ih.2 r hr
        · simp only [List.mem_singleton] at hr
          subst hr
          exact hcond.1
    · cases heq
  | update hr heq ih =>
    rename_i t u txt vec t'
    rw [embUpdate] at heq
    split at heq
    · rename_i hlen
      cases heq
      constructor
      · have hpu : ∀ r : EmbeddingRow,
            (if r.person_uuid = u then
               { r with embedding_text := txt, embedding := vec }
             else r).person_uuid = r.person_uuid := by
          intro r
          split <;> rfl
        rw [List.map_map]
        have hmaps :
            List.map ((fun r : EmbeddingRow => r.person_uuid) ∘ fun r =>
              if r.person_uuid = u then
                { r with embedding_text := txt, embedding := vec }
              else r) t.rows = List.map (fun r => r.person_uuid) t.rows :=
          List.map_congr_left (fun r _ => hpu r)
        rw [hmaps]
        exact ih.1
      · intro r hr
        obtain ⟨r', hr', hrr⟩ := List.mem_map.mp hr
        by_cases hu : r'.person_uuid = u
        · rw [if_pos hu] at hrr
          subst hrr
          exact hlen
        · rw [if_neg hu] at hrr
          subst hrr
          exact ih.2 r' hr'
    · cases heq
  | delete hr ih =>
    rename_i t u
    constructor
    · exact List.Nodup.sublist ((List.filter_sublist _).map _) ih.1
    · intro r hr
      exact ih.2 r (List.mem_of_mem_filter hr)

/-- **C8.** In every reachable state of the embedding store there is at most
one embedding record per profile, and every stored vector has the fixed
dimension 1536; no admitted operation can create a second record for the
same profile (insertion against an existing profile UUID is rejected by the
unique constraint). -/
theorem profile_embeddings_invariant (t : EmbTable) (h : EmbReachable t)
    (u : Nat) :
    (t.rows.filter (fun r => r.person_uuid = u)).length ≤ 1 ∧
    (∀ r ∈ t.rows, r.embedding.length = 1536) ∧
    (∀ txt vec r, r ∈ t.rows → r.person_uuid = u →
       embInsert t u txt vec = none) := by
  have inv := embInv_of_reachable h
  refine ⟨length_filter_key_le_one _ u t.rows inv.1, inv.2, ?_⟩
  intro txt vec r hr hru
  rw [embInsert, if_neg]
  intro hcond
  exact hcond.2 r hr hru

/-- Witness for C8 at the concrete state reached by one successful insert. -/
theorem profile_embeddings_invariant_witness :
    ((⟨2, [⟨1, 7, "profile text", List.replicate 1536 0⟩]⟩ :
        EmbTable).rows.filter (fun r => r.person_uuid = 7)).length ≤ 1 :=
  (profile_embeddings_invariant _
    (@EmbReachable.insert ⟨1, []⟩ 7 "profile text"
      (List.replicate 1536 0) _ EmbReachable.empty
      (by
        rw [embInsert,
          if_pos ⟨by rw [List.length_replicate]; rfl, fun r hr => absurd hr
            (List.not_mem_nil r)⟩]
        rfl))
    7).1

theorem mem_gazetteerHits {q g : String} {gaz : List String}
    (h : g ∈ gazetteerHits q gaz) : g ∈ gaz :=
  List.mem_of_mem_filter h

theorem schemaValid_deterministicPass (q : String) :
    schemaValid (deterministicPass q) := by
  refine ⟨zero_le_one, le_refl 1, ?_, ?_, ?_, ?_, ?_, ?_, ?_, ?_⟩
  · exact fun t ht => mem_gazetteerHits ht
  · exact fun r hr => mem_gazetteerHits hr
  · exact fun l hl => mem_gazetteerHits hl
  · exact fun g hg => mem_gazetteerHits hg
  · exact fun s hs => mem_gazetteerHits (List.mem_of_mem_head? hs)
  · exact fun a ha => mem_gazetteerHits (List.mem_of_mem_head? ha)
  · intro y hy; cases hy
  · intro y hy; cases hy

theorem mem_validateList {allowed vals : List String} {v : String}
    (h : v ∈ validateList allowed vals) : v ∈ allowed := by
  have := (List.mem_filter.mp h).2
  simpa using this

theorem mem_validateStrOpt {allowed : List String} {o : Option String}
    {s : String} (h : s ∈ validateStrOpt allowed o) : s ∈ allowed := by
  cases o with
  | none => cases h
  | some s' =>
    rw [validateStrOpt] at h
    split at h
    · rename_i hmem
      cases h
      exact hmem
    · cases h

theorem mem_validateYear {o : Option Int} {y : Int} (h : y ∈ validateYear o) :
    CLASS_YEAR_MIN ≤ y ∧ y ≤ CLASS_YEAR_MAX := by
  cases o with
  | none => cases h
  | some y' =>
    rw [validateYear] at h
    split at h
    · rename_i hw
      cases h
      exact hw
    · cases h

theorem optCount_validateStrOpt_le (allowed : List String) (o : Option String) :
    optCount (validateStrOpt allowed o) ≤ optCount o := by
  cases o with
  | none => exact le_refl _
  | some s =>
    rw [validateStrOpt]
    split <;> simp [optCount]

theorem optCount_validateYear_le (o : Option Int) :
    optCount (validateYear o) ≤ optCount o := by
  cases o with
  | none => exact le_refl _
  | some y =>
    rw [validateYear]
    split <;> simp [optCount]

theorem rawKept_le_rawTotal (r : RawExtraction) : rawKept r ≤ rawTotal r := by
  rw [rawKept, rawTotal]
  have h1 := List.length_filter_le (fun v => decide (v ∈ traitsGazetteer)) r.traits
  have h2 := List.length_filter_le (fun v => decide (v ∈ rolesGazetteer)) r.roles
  have h3 := List.length_filter_le (fun v => decide (v ∈ locationsGazetteer)) r.locations
  have h4 := List.length_filter_le
    (fun v => decide (v ∈ organizationsGazetteer)) r.organizations
  have h5 := optCount_validateStrOpt_le schoolsGazetteer r.school
  have h6 := optCount_validateYear_le r.classYearFrom
  have h7 := optCount_validateYear_le r.classYearTo
  have h8 := optCount_validateStrOpt_le affiliationTypesGazetteer r.affiliationType
  rw [validateList, validateList, validateList, validateList]
  omega

theorem schemaValid_validatedExtraction (q : String) (r : RawExtraction) :
    schemaValid (validatedExtraction q r) := by
  refine ⟨?_, ?_, ?_, ?_, ?_, ?_, ?_, ?_, ?_, ?_⟩
  · rw [validatedExtraction]
    dsimp only
    split
    · norm_num
    · positivity
  · rw [validatedExtraction]
    dsimp only
    split
    · exact le_refl 1
    · rename_i htot
      rw [div_le_one (by exact_mod_cast Nat.pos_of_ne_zero htot)]
      exact_mod_cast rawKept_le_rawTotal r
  · exact fun t ht => mem_validateList ht
  · exact fun v hv => mem_validateList hv
  · exact fun l hl => mem_validateList hl
  · exact fun g hg => mem_validateList hg
  · exact fun s hs => mem_validateStrOpt hs
  · exact fun a ha => mem_validateStrOpt ha
  · exact fun y hy => mem_validateYear hy
  · exact fun y hy => mem_validateYear hy

/-- **C6.** For every input of valid length and every outcome of the
external language-understanding call, the query analyzer returns a
schema-valid `ParsedQuery` — timeout and total failure degrade to the
deterministic fallback, a returned payload is validated field by field — and
the embedded `callAIProxy` never propagates a thrown error: every failing
outcome yields the fixed fallback message. -/
theorem queryAnalyzer_never_raises (q : String) (o : AnalysisOutcome)
    (h1 : 1 ≤ q.length) (h2 : q.length ≤ 500) :
    schemaValid (analyzeQuery q o) ∧
    (∀ (model category e : String) (po : ProxyOutcome),
       callAIProxyTry po = Except.error e →
       callAIProxy model q category po = proxyErrorMessage) := by
  constructor
  · rw [analyzeQuery.eq_def]
    dsimp only
    split
    · cases o with
      | timeout =>
        have h := schemaValid_deterministicPass q
        exact ⟨h.1, h.2.1, h.2.2.1, h.2.2.2.1, h.2.2.2.2.1, h.2.2.2.2.2.1,
          h.2.2.2.2.2.2.1, h.2.2.2.2.2.2.2.1, h.2.2.2.2.2.2.2.2.1,
          h.2.2.2.2.2.2.2.2.2⟩
      | failure =>
        have h := schemaValid_deterministicPass q
        exact ⟨h.1, h.2.1, h.2.2.1, h.2.2.2.1, h.2.2.2.2.1, h.2.2.2.2.2.1,
          h.2.2.2.2.2.2.1, h.2.2.2.2.2.2.2.1, h.2.2.2.2.2.2.2.2.1,
          h.2.2.2.2.2.2.2.2.2⟩
      | ok raw => exact schemaValid_validatedExtraction q raw
    · exact schemaValid_deterministicPass q
  · intro model category e po hpo
    rw [callAIProxy, hpo]

/-- Witness for C6 at a concrete query, a timeout outcome and a thrown
proxy fetch. -/
theorem queryAnalyzer_never_raises_witness :
    schemaValid (analyzeQuery "computer science students at Yale"
      AnalysisOutcome.timeout) ∧
    callAIProxy "gpt4" "computer science students at Yale" "people"
      (ProxyOutcome.fetchThrew "network down") = proxyErrorMessage :=
  ⟨(queryAnalyzer_never_raises "computer science students at Yale"
      AnalysisOutcome.timeout (by decide) (by decide)).1,
   (queryAnalyzer_never_raises "computer science students at Yale"
      AnalysisOutcome.timeout (by decide) (by decide)).2
     "gpt4" "people" "network down" (ProxyOutcome.fetchThrew "network down")
     rfl⟩

theorem lookup_eq_none_of_not_mem {xs : List (Nat × ℚ)} {i : Nat}
    (h : i ∉ xs.map Prod.fst) : xs.lookup i = none := by
  induction xs with
  | nil => rfl
  | cons x t ih =>
    obtain ⟨k, v⟩ := x
    rw [List.map_cons, List.mem_cons] at h
    push_neg at h
    have hik : (i == k) = false := by
      simp only [beq_eq_false_iff_ne, ne_eq]
      exact h.1
    simp only [List.lookup_cons, hik]
    exact ih h.2

theorem lookup_of_perm :
    ∀ {xs ys : List (Nat × ℚ)}, xs.Perm ys → (xs.map Prod.fst).Nodup →
      ∀ i : Nat, xs.lookup i = ys.lookup i := by
  intro xs ys hperm
  induction hperm with
  | nil => intro _ _; rfl
  | cons x hp ih =>
    intro nd i
    obtain ⟨k, v⟩ := x
    rw [List.map_cons, List.nodup_cons] at nd
    simp only [List.lookup_cons]
    cases hik : i == k with
    | true => rfl
    | false => exact ih nd.2 i
  | swap x y l =>
    intro nd i
    obtain ⟨k₁, v₁⟩ := x
    obtain ⟨k₂, v₂⟩ := y
    rw [List.map_cons, List.map_cons, List.nodup_cons, List.nodup_cons] at nd
    have hne : k₂ ≠ k₁ := by
      intro hkk
      exact nd.1 (hkk ▸ List.mem_cons_self _ _)
    simp only [List.lookup_cons]
    cases h2 : i == k₂ with
    | true =>
      have : i = k₂ := beq_iff_eq.mp h2
      subst this
      have h1 : (i == k₁) = false := by
        simp only [beq_eq_false_iff_ne, ne_eq]
        exact hne
      simp only [h1]
    | false =>
      cases h1 : i == k₁ <;> rfl
  | trans h₁ h₂ ih₁ ih₂ =>
    intro nd i
    have nd₂ := (h₁.map Prod.fst).nodup nd
    rw [ih₁ nd i, ih₂ nd₂ i]

theorem toFinset_eq_of_perm {l₁ l₂ : List ℚ} (h : l₁.Perm l₂) :
    l₁.toFinset = l₂.toFinset := by
  rw [← List.toFinset_coe, ← List.toFinset_coe, Multiset.coe_eq_coe.mpr h]

theorem batchLo_of_perm {xs ys : List (Nat × ℚ)} (h : xs.Perm ys) :
    batchLo xs = batchLo ys := by
  rw [batchLo, batchLo, toFinset_eq_of_perm (h.map Prod.snd)]

theorem batchHi_of_perm {xs ys : List (Nat × ℚ)} (h : xs.Perm ys) :
    batchHi xs = batchHi ys := by
  rw [batchHi, batchHi, toFinset_eq_of_perm (h.map Prod.snd)]

theorem normScore_of_perm {xs ys : List (Nat × ℚ)} (h : xs.Perm ys)
    (nd : (xs.map Prod.fst).Nodup) (i : Nat) :
    normScore xs i = normScore ys i := by
  unfold normScore
  rw [lookup_of_perm h nd i, batchLo_of_perm h, batchHi_of_perm h]

theorem rankLE_trans (f : Nat → ℚ) (a b c : Nat) (hab : rankLE f a b = true)
    (hbc : rankLE f b c = true) : rankLE f a c = true := by
  simp only [rankLE, decide_eq_true_eq] at hab hbc ⊢
  rcases hab with h | ⟨h1, h2⟩ <;> rcases hbc with h' | ⟨h1', h2'⟩
  · exact Or.inl (h'.trans h)
  · exact Or.inl (h1' ▸ h)
  · exact Or.inl (h1 ▸ h')
  · exact Or.inr ⟨h1.trans h1', h2.trans h2'⟩

theorem rankLE_total (f : Nat → ℚ) (a b : Nat) :
    (rankLE f a b || rankLE f b a) = true := by
  simp only [rankLE, Bool.or_eq_true, decide_eq_true_eq]
  rcases lt_trichotomy (f a) (f b) with h | h | h
  · exact Or.inr (Or.inl h)
  · rcases le_total a b with hab | hba
    · exact Or.inl (Or.inr ⟨h, hab⟩)
    · exact Or.inr (Or.inr ⟨h.symm, hba⟩)
  · exact Or.inl (Or.inl h)

theorem rankRel_antisymm (f : Nat → ℚ) :
    ∀ i j, RankRel f i j → RankRel f j i → i = j := by
  intro i j hij hji
  rcases hij with h | ⟨h1, h2⟩ <;> rcases hji with h' | ⟨h1', h2'⟩
  · exact absurd (h.trans h') (lt_irrefl _)
  · exact absurd h (h1' ▸ lt_irrefl _)
  · exact absurd h' (h1 ▸ lt_irrefl _)
  · exact le_antisymm h2 h2'

theorem mergeSort_eq_of_perm (f : Nat → ℚ) {l₁ l₂ : List Nat}
    (h : l₁.Perm l₂) :
    l₁.mergeSort (rankLE f) = l₂.mergeSort (rankLE f) := by
  haveI : IsAntisymm Nat (RankRel f) := ⟨rankRel_antisymm f⟩
  have hsort : ∀ l : List Nat, List.Sorted (RankRel f) (l.mergeSort (rankLE f)) := by
    intro l
    have hp := List.sorted_mergeSort (rankLE_trans f)
      (rankLE_total f) l
    exact hp.imp (fun hab => by simpa [rankLE, decide_eq_true_eq] using hab)
  exact List.eq_of_perm_of_sorted
    ((List.mergeSort_perm l₁ _).trans (h.trans (List.mergeSort_perm l₂ _).symm))
    (hsort l₁) (hsort l₂)

/-- **C4.** The fused output ranges over exactly the union of the ids in the
lexical and semantic candidate batches — an id from either batch appears
unless cut off by the truncation to the requested window (`fuseRank` is the
full fused order truncated to `n`) — and a candidate absent from one batch
has that signal normalized to zero. -/
theorem rankFuser_union (p : FusionParams) (boost : Nat → ℚ)
    (lex sem : List (Nat × ℚ)) (n i : Nat) :
    (i ∈ fuseAll p boost lex sem ↔
       i ∈ lex.map Prod.fst ∨ i ∈ sem.map Prod.fst) ∧
    fuseRank p boost lex sem n =
      ((fuseAll p boost lex sem).take n).map
        (fun j => (j, fusedScore p boost lex sem j)) ∧
    (i ∉ lex.map Prod.fst → normScore lex i = 0) ∧
    (i ∉ sem.map Prod.fst → normScore sem i = 0) := by
  refine ⟨?_, rfl, ?_, ?_⟩
  · rw [fuseAll, List.mem_mergeSort, candidateIds, List.mem_dedup,
      List.mem_append]
  · intro h
    simp [normScore, lookup_eq_none_of_not_mem h]
  · intro h
    simp [normScore, lookup_eq_none_of_not_mem h]

/-- Witness for C4: a semantic-only candidate appears in the fused output,
and missing signals normalize to zero. -/
theorem rankFuser_union_witness :
    (3 ∈ fuseAll ⟨1, 1, 0⟩ (fun _ => 0) [(1, 1), (2, 2)] [(3, 5)]) ∧
    normScore ([(3, 5)] : List (Nat × ℚ)) 7 = 0 :=
  ⟨(rankFuser_union ⟨1, 1, 0⟩ (fun _ => 0) [(1, 1), (2, 2)] [(3, 5)] 20
      3).1.mpr (Or.inr (by decide)),
   (rankFuser_union ⟨1, 1, 0⟩ (fun _ => 0) [(1, 1), (2, 2)] [(3, 5)] 20
      7).2.2.2 (by decide)⟩

/-- **C5.** The fused ranking is a deterministic function of the candidate
sets: two runs that see the same lexical and semantic candidates — in any
arrival order — produce the identical ordered result list, because each
signal is looked up per id, min-max normalization is order-independent, and
ties on the fused score are broken by the fixed secondary key (the profile
id). -/
theorem rankFuser_deterministic (p : FusionParams) (boost : Nat → ℚ)
    (lex₁ lex₂ sem₁ sem₂ : List (Nat × ℚ)) (n : Nat)
    (hl : lex₁.Perm lex₂) (hs : sem₁.Perm sem₂)
    (ndl : (lex₁.map Prod.fst).Nodup) (nds : (sem₁.map Prod.fst).Nodup) :
    fuseRank p boost lex₁ sem₁ n = fuseRank p boost lex₂ sem₂ n := by
  have hf : fusedScore p boost lex₁ sem₁ = fusedScore p boost lex₂ sem₂ := by
    funext i
    rw [fusedScore, fusedScore, normScore_of_perm hl ndl i,
      normScore_of_perm hs nds i]
  have hperm : (candidateIds lex₁ sem₁).Perm (candidateIds lex₂ sem₂) :=
    ((hl.map Prod.fst).append (hs.map Prod.fst)).dedup
  rw [fuseRank, fuseRank, fuseAll, fuseAll, ← hf,
    mergeSort_eq_of_perm (fusedScore p boost lex₁ sem₁) hperm]

/-- Witness for C5: two permuted presentations of the same candidate batches
fuse to the identical ordered list. -/
theorem rankFuser_deterministic_witness :
    fuseRank ⟨2, 1, 1⟩ (fun _ => 0) [(1, 1), (2, 3)] [(5, 2), (2, 4)] 10 =
      fuseRank ⟨2, 1, 1⟩ (fun _ => 0) [(2, 3), (1, 1)] [(2, 4), (5, 2)] 10 :=
  rankFuser_deterministic ⟨2, 1, 1⟩ (fun _ => 0) [(1, 1), (2, 3)]
    [(2, 3), (1, 1)] [(5, 2), (2, 4)] [(2, 4), (5, 2)] 10
    (by decide) (by decide) (by decide) (by decide)
